import Mathlib

/-
Verification of the command-construction layer of the glide-for-redis Python
client: the option primitives and command façades of
`python/python/pybushka/async_commands/core.py` and the search-module façades
of `python/python/glide/async_commands/server_modules/ft.py`.

The façades build flat token sequences (lists of strings) and hand them to an
abstract dispatch capability (`execute_command` / `custom_command`), which we
model as a function parameter.  Fallible construction (Python `raise
ValueError`) is modelled with `Except`.
-/

/-- A Python runtime value, as far as the expiry-option logic inspects one: an
`int`, a `datetime.timedelta` (held exactly as its count of microseconds, the
full resolution of a Python timedelta), a `datetime.datetime` (held as its Unix
timestamp in seconds, a rational), or `None`. -/
inductive PyVal where
  | int (n : Int)
  | timedelta (microseconds : Int)
  | datetime (timestamp : Rat)
  | none
  deriving DecidableEq

/-- The `ConditionalSet` enum of core.py lines 9-16: `ONLY_IF_EXISTS` is `XX`,
`ONLY_IF_DOES_NOT_EXIST` is `NX` in the Redis API. -/
inductive ConditionalSet where
  | ONLY_IF_EXISTS
  | ONLY_IF_DOES_NOT_EXIST
  deriving DecidableEq

/-- The `ExpiryType` enum of core.py lines 19-33.  Each Python enum value pairs
an index with the accepted input types; the accepted-type sets are embedded
separately in `acceptedType`. -/
inductive ExpiryType where
  | SEC
  | MILLSEC
  | UNIX_SEC
  | UNIX_MILLSEC
  | KEEP_TTL
  deriving DecidableEq

/-- The `isinstance(value, get_args(expiry_type.value[1]))` check of core.py
line 60, applied to the type tuples declared on lines 29-33: `SEC` and
`MILLSEC` accept `int` and `timedelta`; `UNIX_SEC` and `UNIX_MILLSEC` accept
`int` and `datetime`; `KEEP_TTL` declares `Type[None]`, whose `get_args` is the
single type of `None`, so only `None` passes. -/
def acceptedType : ExpiryType → PyVal → Bool
  | .SEC, .int _ => true
  | .SEC, .timedelta _ => true
  | .MILLSEC, .int _ => true
  | .MILLSEC, .timedelta _ => true
  | .UNIX_SEC, .int _ => true
  | .UNIX_SEC, .datetime _ => true
  | .UNIX_MILLSEC, .int _ => true
  | .UNIX_MILLSEC, .datetime _ => true
  | .KEEP_TTL, .none => true
  | _, _ => false

/-- Python `int()` applied to a non-integer number: truncation toward zero
(floor for non-negative arguments, ceiling for negative ones). -/
def ratTrunc (q : Rat) : Int := if 0 ≤ q then ⌊q⌋ else -⌊-q⌋

/-- The keyword each branch of `set_expiry_type_and_value` (core.py lines
65-82) assigns to `self.cmd_arg`. -/
def ExpiryType.keyword : ExpiryType → String
  | .SEC => "EX"
  | .MILLSEC => "PX"
  | .UNIX_SEC => "EXAT"
  | .UNIX_MILLSEC => "PXAT"
  | .KEEP_TTL => "KEEPTTL"

/-- The Python local `value` after the branch on `expiry_type` in
`set_expiry_type_and_value` (core.py lines 65-82): an `int` input is kept as
is; a `timedelta` is converted by `int(value.total_seconds())` under `SEC` or
`int(value.total_seconds() * 1000)` under `MILLSEC`, where `total_seconds()` of
a timedelta of μ microseconds is μ / 1000000; a `datetime` is converted by
`int(value.timestamp())` under `UNIX_SEC` or `int(value.timestamp() * 1000)`
under `UNIX_MILLSEC`; under `KEEP_TTL` the value stays `None`.  Combinations
rejected by the isinstance check on line 60 never reach these lines and are
mapped to `Option.none` here. -/
def normalizedInt : ExpiryType → PyVal → Option Int
  | .SEC, .int n => Option.some n
  | .SEC, .timedelta μ => Option.some (ratTrunc ((μ : Rat) / 1000000))
  | .MILLSEC, .int n => Option.some n
  | .MILLSEC, .timedelta μ => Option.some (ratTrunc ((μ : Rat) / 1000000 * 1000))
  | .UNIX_SEC, .int n => Option.some n
  | .UNIX_SEC, .datetime ts => Option.some (ratTrunc ts)
  | .UNIX_MILLSEC, .int n => Option.some n
  | .UNIX_MILLSEC, .datetime ts => Option.some (ratTrunc (ts * 1000))
  | _, _ => Option.none

/-- Core.py line 83: `self.value = str(value) if value else None`.  At that
point `value` is an `int` or `None`; an `int` is truthy exactly when it is
nonzero, so `0` is stored as `None` exactly like `None` itself. -/
def strIfTruthy : Option Int → Option String
  | Option.some n => if n = 0 then Option.none else Option.some (toString n)
  | Option.none => Option.none

/-- The state an `ExpirySet` object holds after construction: `self.cmd_arg`
and `self.value` (core.py lines 64-83). -/
structure ExpirySet where
  cmd_arg : String
  value : Option String
  deriving DecidableEq

/-- `ExpirySet.__init__` via `set_expiry_type_and_value` (core.py lines 39-83):
validates the value's runtime type against the mode's accepted types (line 60),
raising `ValueError` on mismatch before any field is set; otherwise stores the
mode's keyword and the stringified converted value (`None` when falsy). -/
def ExpirySet.make (expiry_type : ExpiryType) (value : PyVal) : Except String ExpirySet :=
  if acceptedType expiry_type value then
    Except.ok { cmd_arg := expiry_type.keyword,
                value := strIfTruthy (normalizedInt expiry_type value) }
  else
    Except.error "The value of the expiry type should be of the accepted types"

/-- `ExpirySet.get_cmd_args` (core.py lines 85-86): `[self.cmd_arg]` if
`self.value is None` else `[self.cmd_arg, self.value]`. -/
def ExpirySet.get_cmd_args (e : ExpirySet) : List String :=
  match e.value with
  | Option.none => [e.cmd_arg]
  | Option.some v => [e.cmd_arg, v]

/-- The protobuf `RequestType` identifiers used by the core.py façades. -/
inductive RequestType where
  | SetString
  | GetString
  | CustomCommand
  deriving DecidableEq

/-- The argument list `CoreCommands.set` builds (core.py lines 134-143):
`args = [key, value]`; inside `if conditional_set:` (enum members are always
truthy) two sequential ifs append `XX` for `ONLY_IF_EXISTS` and `NX` for
`ONLY_IF_DOES_NOT_EXIST`; `if return_old_value:` appends `GET`; `if expiry is
not None:` extends with `expiry.get_cmd_args()`. -/
def buildSetArgs (key value : String) (conditional_set : Option ConditionalSet)
    (expiry : Option ExpirySet) (return_old_value : Bool) : List String :=
  let args := [key, value]
  let args :=
    match conditional_set with
    | Option.some c =>
        let args := if c = ConditionalSet.ONLY_IF_EXISTS then args ++ ["XX"] else args
        if c = ConditionalSet.ONLY_IF_DOES_NOT_EXIST then args ++ ["NX"] else args
    | Option.none => args
  let args := if return_old_value then args ++ ["GET"] else args
  match expiry with
  | Option.some e => args ++ e.get_cmd_args
  | Option.none => args

/-- `CoreCommands.set` (core.py lines 104-144): builds the argument list and
dispatches it with `RequestType.SetString` through `execute_command`, returning
the adapter's result. -/
def CoreCommands.set {α : Type} (execute_command : RequestType → List String → α)
    (key value : String) (conditional_set : Option ConditionalSet)
    (expiry : Option ExpirySet) (return_old_value : Bool) : α :=
  execute_command RequestType.SetString
    (buildSetArgs key value conditional_set expiry return_old_value)

/-- `CoreCommands.get` (core.py lines 146-156): dispatches `[key]` with
`RequestType.GetString` and returns the adapter's result, typed
`Union[str, None]`. -/
def CoreCommands.get (execute_command : RequestType → List String → Option String)
    (key : String) : Option String :=
  execute_command RequestType.GetString [key]

/-- `CoreCommands.custom_command` (core.py lines 158-170): dispatches the
caller's argument list with `RequestType.CustomCommand`, without checking
inputs, and returns the adapter's result. -/
def CoreCommands.custom_command {α : Type} (execute_command : RequestType → List String → α)
    (command_args : List String) : α :=
  execute_command RequestType.CustomCommand command_args

/-- Modelled from the spec: the command-name constant `FT_CREATE` of
`ft_options/ft_constants.py` (`CommandNames`), a module not among the sources;
the spec's wire-format section names the keyword `FT.CREATE`. -/
def CommandNames.FT_CREATE : String := "FT.CREATE"

/-- Modelled from the spec: the command-name constant `FT_DROPINDEX` of
`ft_options/ft_constants.py`; the spec names the keyword `FT.DROPINDEX`. -/
def CommandNames.FT_DROPINDEX : String := "FT.DROPINDEX"

/-- Modelled from the spec: the command-name constant `FT_ALIASADD` of
`ft_options/ft_constants.py`; the spec names the keyword `FT.ALIASADD`. -/
def CommandNames.FT_ALIASADD : String := "FT.ALIASADD"

/-- Modelled from the spec: the command-name constant `FT_ALIASDEL` of
`ft_options/ft_constants.py`; the spec names the keyword `FT.ALIASDEL`. -/
def CommandNames.FT_ALIASDEL : String := "FT.ALIASDEL"

/-- Modelled from the spec: the command-name constant `FT_ALIASUPDATE` of
`ft_options/ft_constants.py`; the spec names the keyword `FT.ALIASUPDATE`. -/
def CommandNames.FT_ALIASUPDATE : String := "FT.ALIASUPDATE"

/-- Modelled from the spec: the `SCHEMA` keyword marker of
`ft_constants.FtCreateKeywords`, per the spec's FT.CREATE wire format. -/
def FtCreateKeywords.SCHEMA : String := "SCHEMA"

/-- Modelled from the spec: a schema field descriptor of
`ft_options/ft_create_options.py` (not among the sources).  The spec describes
fields as polymorphic over a tokenize capability, each producing its own token
sub-sequence; only that capability is needed by `ft.create`.  (The source
class is named `Field`; that name is taken by Mathlib, hence `FtField`.) -/
structure FtField where
  toArgs : List String

/-- Modelled from the spec: `FtCreateOptions` of
`ft_options/ft_create_options.py` (not among the sources), which aggregates
index-level settings and tokenizes, before the schema block, via `toArgs`. -/
structure FtCreateOptions where
  toArgs : List String

/-- The argument list `ft.create` builds (ft.py lines 49-55):
`args = [CommandNames.FT_CREATE, indexName]`; `if options:` (an options object
is always truthy) extends with `options.toArgs()`; `if schema:` (a list is
truthy exactly when non-empty) appends the `SCHEMA` keyword and then each
field's `toArgs()` in declaration order. -/
def ft.createArgs (indexName : String) (schema : List FtField)
    (options : Option FtCreateOptions) : List String :=
  let args := [CommandNames.FT_CREATE, indexName]
  let args :=
    match options with
    | Option.some o => args ++ o.toArgs
    | Option.none => args
  match schema with
  | [] => args
  | _ => args ++ FtCreateKeywords.SCHEMA :: (schema.map FtField.toArgs).flatten

/-- `ft.create` (ft.py lines 20-56): builds the argument list and dispatches it
through the client's `custom_command`. -/
def ft.create {α : Type} (custom_command : List String → α) (indexName : String)
    (schema : List FtField) (options : Option FtCreateOptions) : α :=
  custom_command (ft.createArgs indexName schema options)

/-- `ft.dropindex` (ft.py lines 59-78): dispatches
`[CommandNames.FT_DROPINDEX, indexName]` through `custom_command`. -/
def ft.dropindex {α : Type} (custom_command : List String → α)
    (indexName : String) : α :=
  custom_command [CommandNames.FT_DROPINDEX, indexName]

/-- `ft.aliasadd` (ft.py lines 81-101): dispatches
`[CommandNames.FT_ALIASADD, alias, indexName]` through `custom_command`. -/
def ft.aliasadd {α : Type} (custom_command : List String → α)
    (aliasName indexName : String) : α :=
  custom_command [CommandNames.FT_ALIASADD, aliasName, indexName]

/-- `ft.aliasdel` (ft.py lines 104-121): dispatches
`[CommandNames.FT_ALIASDEL, alias]` through `custom_command`. -/
def ft.aliasdel {α : Type} (custom_command : List String → α)
    (aliasName : String) : α :=
  custom_command [CommandNames.FT_ALIASDEL, aliasName]

/-- `ft.aliasupdate` (ft.py lines 124-144): dispatches
`[CommandNames.FT_ALIASUPDATE, alias, indexName]` through `custom_command`. -/
def ft.aliasupdate {α : Type} (custom_command : List String → α)
    (aliasName indexName : String) : α :=
  custom_command [CommandNames.FT_ALIASUPDATE, aliasName, indexName]

/-- The 1:1 conditional-mode token mapping stated by the spec: `XX` for
`ONLY_IF_EXISTS`, `NX` for `ONLY_IF_DOES_NOT_EXIST`. -/
def ConditionalSet.token : ConditionalSet → String
  | .ONLY_IF_EXISTS => "XX"
  | .ONLY_IF_DOES_NOT_EXIST => "NX"

deriving instance DecidableEq for Except

/-- Truncation toward zero agrees with the floor on non-negative rationals. -/
theorem ratTrunc_eq_floor (q : Rat) (h : 0 ≤ q) : ratTrunc q = ⌊q⌋ := by
  rw [ratTrunc, if_pos h]

/-- Truncation toward zero drops a sub-unit fraction added to a non-negative
integer. -/
theorem ratTrunc_int_add_fract (n : Int) (r : Rat) (hn : 0 ≤ n) (hr0 : 0 ≤ r)
    (hr1 : r < 1) : ratTrunc ((n : Rat) + r) = n := by
  have h1 : (0 : Rat) ≤ (n : Rat) + r := by positivity
  rw [ratTrunc_eq_floor _ h1]
  have h2 : ⌊r⌋ = 0 := Int.floor_eq_zero_iff.mpr ⟨hr0, hr1⟩
  have h3 : ⌊(n : Rat) + r⌋ = ⌊r⌋ + n := by rw [add_comm, Int.floor_add_int]
  omega

/-- C1 counterexample: with key "k", value "v", mode ONLY_IF_EXISTS, expiry
ExpirySet(SEC, 5) and return_old_value true, the argument list the SET façade
builds is not the 7-token sequence starting with a "SET" token that the claim
states: the façade never puts the command keyword into the list. -/
theorem set_c1_counterexample :
    (ExpirySet.make ExpiryType.SEC (PyVal.int 5)).map
        (fun e => buildSetArgs "k" "v" (Option.some ConditionalSet.ONLY_IF_EXISTS)
          (Option.some e) true)
      ≠ Except.ok ["SET", "k", "v", "XX", "GET", "EX", "5"] := by decide

/-- C1 (amended): with key "k", value "v", mode ONLY_IF_EXISTS, expiry
ExpirySet(SEC, 5) and return_old_value true, the SET façade builds exactly
["k", "v", "XX", "GET", "EX", "5"] — this exact sequence in this exact order;
the "SET" keyword is conveyed by the SetString request identifier, not as a
leading token of the built list. -/
theorem set_c1_amended :
    (ExpirySet.make ExpiryType.SEC (PyVal.int 5)).map
        (fun e => buildSetArgs "k" "v" (Option.some ConditionalSet.ONLY_IF_EXISTS)
          (Option.some e) true)
      = Except.ok ["k", "v", "XX", "GET", "EX", "5"] := by decide

/-- C2: for every key, value, optional conditional mode, optional expiry and
boolean return_old_value, the SET façade assembles its argument tokens in the
fixed order key, value, conditional token ("XX"/"NX", a 1:1 mapping) if a mode
is given, "GET" if return_old_value, then the expiry's tokens if an expiry is
given — and dispatches that sequence with the SetString identifier. -/
theorem set_c2 {α : Type} (execute_command : RequestType → List String → α)
    (key value : String) (conditional_set : Option ConditionalSet)
    (expiry : Option ExpirySet) (return_old_value : Bool) :
    CoreCommands.set execute_command key value conditional_set expiry return_old_value
      = execute_command RequestType.SetString
          ([key, value]
            ++ (match conditional_set with
                | Option.some c => [c.token]
                | Option.none => [])
            ++ (if return_old_value then ["GET"] else [])
            ++ (match expiry with
                | Option.some e => e.get_cmd_args
                | Option.none => [])) := by
  rcases conditional_set with _ | c
  · rcases expiry with _ | e <;> cases return_old_value <;>
      simp [CoreCommands.set, buildSetArgs]
  · rcases expiry with _ | e <;> cases c <;> cases return_old_value <;>
      simp [CoreCommands.set, buildSetArgs, ConditionalSet.token]

/-- C6: for every index name, schema list and optional options object,
ft.create emits exactly the command keyword, the index name, the options'
tokens when options are present, and — only when the schema list is non-empty —
a SCHEMA keyword token followed by every field's tokens concatenated in
declaration order; with an empty schema the SCHEMA keyword and the whole
schema block are absent. -/
theorem ft_create_c6 {α : Type} (custom_command : List String → α)
    (indexName : String) (schema : List FtField)
    (options : Option FtCreateOptions) :
    ft.create custom_command indexName schema options
      = custom_command
          ([CommandNames.FT_CREATE, indexName]
            ++ (match options with
                | Option.some o => o.toArgs
                | Option.none => [])
            ++ (if schema.isEmpty then []
                else FtCreateKeywords.SCHEMA :: (schema.map FtField.toArgs).flatten)) := by
  rcases options with _ | o <;> cases schema <;>
    simp [ft.create, ft.createArgs]

/-- C7: ft.dropindex "idx" emits exactly ["FT.DROPINDEX", "idx"], and for every
alias and index name the alias façades emit exactly their fixed-shape
sequences: aliasadd ["FT.ALIASADD", alias, indexName], aliasdel
["FT.ALIASDEL", alias], aliasupdate ["FT.ALIASUPDATE", alias, indexName], and
dropindex ["FT.DROPINDEX", indexName], with no option tokens appended. -/
theorem ft_fixed_shape_c7 {α : Type} (custom_command : List String → α)
    (aliasName indexName : String) :
    ft.dropindex custom_command "idx" = custom_command ["FT.DROPINDEX", "idx"]
  ∧ ft.aliasadd custom_command aliasName indexName
      = custom_command ["FT.ALIASADD", aliasName, indexName]
  ∧ ft.aliasdel custom_command aliasName = custom_command ["FT.ALIASDEL", aliasName]
  ∧ ft.aliasupdate custom_command aliasName indexName
      = custom_command ["FT.ALIASUPDATE", aliasName, indexName]
  ∧ ft.dropindex custom_command indexName
      = custom_command ["FT.DROPINDEX", indexName] :=
  ⟨rfl, rfl, rfl, rfl, rfl⟩

/-- C8: for every ordered token list supplied by the caller, the
custom-command escape hatch forwards exactly that list — same tokens, same
order, nothing added, removed, joined or modified, no validation — to the
dispatch adapter under the CustomCommand identifier, and returns the adapter's
result undecoded. -/
theorem custom_command_c8 {α : Type}
    (execute_command : RequestType → List String → α)
    (command_args : List String) :
    CoreCommands.custom_command execute_command command_args
      = execute_command RequestType.CustomCommand command_args := rfl

/-- C9: for every key, the GET façade dispatches exactly the single-token
sequence [key] with the GetString identifier and propagates the adapter's
result unchanged; the "no value" marker (none) is a value distinct from the
empty string (some ""). -/
theorem get_c9 (execute_command : RequestType → List String → Option String)
    (key : String) :
    CoreCommands.get execute_command key = execute_command RequestType.GetString [key]
  ∧ (Option.none : Option String) ≠ Option.some "" :=
  ⟨rfl, by decide⟩

/-- Helper: when construction succeeds with a nonzero normalized integer, the
tokens are the keyword followed by the stringified integer. -/
theorem make_tokens_of_normalized (m : ExpiryType) (v : PyVal)
    (hv : acceptedType m v = true) (n : Int)
    (hn : normalizedInt m v = Option.some n) (hz : n ≠ 0) :
    (ExpirySet.make m v).map ExpirySet.get_cmd_args
      = Except.ok [m.keyword, toString n] := by
  simp [ExpirySet.make, hv, hn, strIfTruthy, hz, ExpirySet.get_cmd_args, Except.map]

/-- C3 counterexample: under SEC mode the accepted int value 0 is not an empty
value, yet the constructed expiry's tokens are just ["EX"], not the
["EX", "0"] the claim's else-branch requires. -/
theorem expiry_c3_counterexample :
    (ExpirySet.make ExpiryType.SEC (PyVal.int 0)).map ExpirySet.get_cmd_args
        ≠ Except.ok ["EX", "0"]
  ∧ (ExpirySet.make ExpiryType.SEC (PyVal.int 0)).map ExpirySet.get_cmd_args
        = Except.ok ["EX"] := by decide

/-- C3 (amended): for every ExpiryType m and accepted value v, the constructed
expiry's tokens are [keyword m] when the value is null or its normalized
integer is zero, and [keyword m, stringified normalized value] otherwise; for
KEEP_TTL they are always exactly ["KEEPTTL"]. -/
theorem expiry_c3_amended (m : ExpiryType) (v : PyVal)
    (h : acceptedType m v = true) :
    ∃ e, ExpirySet.make m v = Except.ok e
      ∧ e.get_cmd_args =
          (match normalizedInt m v with
           | Option.some n => if n = 0 then [m.keyword] else [m.keyword, toString n]
           | Option.none => [m.keyword])
      ∧ (m = ExpiryType.KEEP_TTL → e.get_cmd_args = ["KEEPTTL"]) := by
  refine ⟨⟨m.keyword, strIfTruthy (normalizedInt m v)⟩, ?_, ?_, ?_⟩
  · simp [ExpirySet.make, h]
  · cases hn : normalizedInt m v with
    | none => simp [ExpirySet.get_cmd_args, strIfTruthy]
    | some n =>
        by_cases hz : n = 0 <;>
          simp [ExpirySet.get_cmd_args, strIfTruthy, hz]
  · intro hm
    subst hm
    cases v <;>
      simp [normalizedInt, ExpirySet.get_cmd_args, strIfTruthy, ExpiryType.keyword]

/-- C3 witness: the amended statement at SEC mode with int value 5; the expiry
is built and its tokens are ["EX", "5"]. -/
theorem expiry_c3_amended_witness :
    ∃ e, ExpirySet.make ExpiryType.SEC (PyVal.int 5) = Except.ok e
      ∧ e.get_cmd_args =
          (match normalizedInt ExpiryType.SEC (PyVal.int 5) with
           | Option.some n => if n = 0 then [ExpiryType.SEC.keyword]
                              else [ExpiryType.SEC.keyword, toString n]
           | Option.none => [ExpiryType.SEC.keyword])
      ∧ (ExpiryType.SEC = ExpiryType.KEEP_TTL → e.get_cmd_args = ["KEEPTTL"]) :=
  expiry_c3_amended ExpiryType.SEC (PyVal.int 5) (by decide)

/-- C4: for every mode m and value v whose runtime type is not in m's accepted
set, construction fails synchronously with the InvalidOptionValue error and no
expiry object is produced; in particular every value other than None is
rejected by KEEP_TTL. -/
theorem expiry_c4 (m : ExpiryType) (v : PyVal) (h : acceptedType m v = false) :
    (∃ msg, ExpirySet.make m v = Except.error msg)
  ∧ (∀ w : PyVal, w ≠ PyVal.none → acceptedType ExpiryType.KEEP_TTL w = false) := by
  constructor
  · refine ⟨"The value of the expiry type should be of the accepted types", ?_⟩
    simp [ExpirySet.make, h]
  · intro w hw
    cases w with
    | none => exact absurd rfl hw
    | int n => rfl
    | timedelta microseconds => rfl
    | datetime timestamp => rfl

/-- C4 witness: SEC mode rejects the value None. -/
theorem expiry_c4_witness :
    (∃ msg, ExpirySet.make ExpiryType.SEC PyVal.none = Except.error msg)
  ∧ (∀ w : PyVal, w ≠ PyVal.none → acceptedType ExpiryType.KEEP_TTL w = false) :=
  expiry_c4 ExpiryType.SEC PyVal.none (by decide)

/-- C10: for every non-KEEP_TTL mode and accepted value whose normalized
integer is 0 (the int 0, or a duration shorter than one unit), the constructed
expiry stores no value string and its tokens are just [keyword], the value
token omitted. -/
theorem expiry_c10 (m : ExpiryType) (v : PyVal) (hm : m ≠ ExpiryType.KEEP_TTL)
    (hv : acceptedType m v = true) (h0 : normalizedInt m v = Option.some 0) :
    (ExpirySet.make m v).map ExpirySet.get_cmd_args = Except.ok [m.keyword]
  ∧ (ExpirySet.make m v).map (fun e => e.value) = Except.ok Option.none := by
  have _hm := hm
  constructor <;>
    simp [ExpirySet.make, hv, h0, strIfTruthy, ExpirySet.get_cmd_args, Except.map]

/-- C10 witness: SEC mode with int value 0 yields tokens ["EX"] and stores no
value string. -/
theorem expiry_c10_witness :
    (ExpirySet.make ExpiryType.SEC (PyVal.int 0)).map ExpirySet.get_cmd_args
        = Except.ok [ExpiryType.SEC.keyword]
  ∧ (ExpirySet.make ExpiryType.SEC (PyVal.int 0)).map (fun e => e.value)
        = Except.ok Option.none :=
  expiry_c10 ExpiryType.SEC (PyVal.int 0) (by decide) (by decide) (by decide)

/-- C5: duration and point-in-time expiry values are normalized at
construction to an integer count by truncation, not rounding, of sub-unit
fractions: a datetime at n + r seconds (0 ≤ r < 1) under UNIX_SEC normalizes
to n, and a timedelta of s whole seconds plus mi microseconds (mi < 1000000)
under SEC normalizes to s; concretely, a 5-second duration under SEC tokenizes
to ["EX", "5"], a 5000-millisecond duration under MILLSEC to ["PX", "5000"], a
5.9-second duration under SEC to ["EX", "5"] (rounding would give 6), a
datetime at 1.9 seconds under UNIX_SEC to ["EXAT", "1"], and a datetime at 1.5
seconds under UNIX_MILLSEC to ["PXAT", "1500"]. -/
theorem expiry_c5 (n : Int) (r : Rat) (s mi : Int) (hn : 0 ≤ n) (hr0 : 0 ≤ r)
    (hr1 : r < 1) (hs : 0 ≤ s) (hm0 : 0 ≤ mi) (hm1 : mi < 1000000) :
    normalizedInt ExpiryType.UNIX_SEC (PyVal.datetime ((n : Rat) + r)) = Option.some n
  ∧ normalizedInt ExpiryType.SEC (PyVal.timedelta (s * 1000000 + mi)) = Option.some s
  ∧ (ExpirySet.make ExpiryType.SEC (PyVal.timedelta 5000000)).map ExpirySet.get_cmd_args
      = Except.ok ["EX", "5"]
  ∧ (ExpirySet.make ExpiryType.MILLSEC (PyVal.timedelta 5000000)).map ExpirySet.get_cmd_args
      = Except.ok ["PX", "5000"]
  ∧ (ExpirySet.make ExpiryType.SEC (PyVal.timedelta 5900000)).map ExpirySet.get_cmd_args
      = Except.ok ["EX", "5"]
  ∧ (ExpirySet.make ExpiryType.UNIX_SEC (PyVal.datetime (19 / 10))).map ExpirySet.get_cmd_args
      = Except.ok ["EXAT", "1"]
  ∧ (ExpirySet.make ExpiryType.UNIX_MILLSEC (PyVal.datetime (3 / 2))).map ExpirySet.get_cmd_args
      = Except.ok ["PXAT", "1500"] := by
  have _hm0 := hm0
  refine ⟨?_, ?_, ?_, ?_, ?_, ?_, ?_⟩
  · show Option.some (ratTrunc ((n : Rat) + r)) = Option.some n
    rw [ratTrunc_int_add_fract n r hn hr0 hr1]
  · show Option.some (ratTrunc (((s * 1000000 + mi : Int) : Rat) / 1000000)) = Option.some s
    have hcast : ((s * 1000000 + mi : Int) : Rat) / 1000000
        = (s : Rat) + (mi : Rat) / 1000000 := by
      push_cast
      ring
    have hlt : (mi : Rat) / 1000000 < 1 := by
      rw [div_lt_one (by norm_num)]
      exact_mod_cast hm1
    have hge : (0 : Rat) ≤ (mi : Rat) / 1000000 := by positivity
    rw [hcast, ratTrunc_int_add_fract s ((mi : Rat) / 1000000) hs hge hlt]
  · have h1 : normalizedInt ExpiryType.SEC (PyVal.timedelta 5000000)
        = Option.some 5 := by
      show Option.some (ratTrunc (((5000000 : Int) : Rat) / 1000000)) = Option.some 5
      rw [ratTrunc_eq_floor _ (by norm_num)]
      norm_num
    rw [make_tokens_of_normalized ExpiryType.SEC (PyVal.timedelta 5000000) rfl 5 h1 (by decide)]
    decide
  · have h1 : normalizedInt ExpiryType.MILLSEC (PyVal.timedelta 5000000)
        = Option.some 5000 := by
      show Option.some (ratTrunc (((5000000 : Int) : Rat) / 1000000 * 1000)) = Option.some 5000
      rw [ratTrunc_eq_floor _ (by norm_num)]
      norm_num
    rw [make_tokens_of_normalized ExpiryType.MILLSEC (PyVal.timedelta 5000000) rfl 5000 h1 (by decide)]
    decide
  · have h1 : normalizedInt ExpiryType.SEC (PyVal.timedelta 5900000)
        = Option.some 5 := by
      show Option.some (ratTrunc (((5900000 : Int) : Rat) / 1000000)) = Option.some 5
      rw [ratTrunc_eq_floor _ (by norm_num)]
      norm_num
    rw [make_tokens_of_normalized ExpiryType.SEC (PyVal.timedelta 5900000) rfl 5 h1 (by decide)]
    decide
  · have h1 : normalizedInt ExpiryType.UNIX_SEC (PyVal.datetime (19 / 10))
        = Option.some 1 := by
      show Option.some (ratTrunc ((19 : Rat) / 10)) = Option.some 1
      rw [ratTrunc_eq_floor _ (by norm_num)]
      norm_num
    rw [make_tokens_of_normalized ExpiryType.UNIX_SEC (PyVal.datetime (19 / 10)) rfl 1 h1 (by decide)]
    decide
  · have h1 : normalizedInt ExpiryType.UNIX_MILLSEC (PyVal.datetime (3 / 2))
        = Option.some 1500 := by
      show Option.some (ratTrunc ((3 : Rat) / 2 * 1000)) = Option.some 1500
      rw [ratTrunc_eq_floor _ (by norm_num)]
      norm_num
    rw [make_tokens_of_normalized ExpiryType.UNIX_MILLSEC (PyVal.datetime (3 / 2)) rfl 1500 h1 (by decide)]
    decide

/-- C5 witness: the statement at n = 1000000, r = 9/10, s = 5, mi = 900000:
a datetime at 1000000.9 seconds normalizes to 1000000 and a timedelta of 5.9
seconds normalizes to 5, alongside the concrete token evaluations. -/
theorem expiry_c5_witness :
    normalizedInt ExpiryType.UNIX_SEC
        (PyVal.datetime (((1000000 : Int) : Rat) + mkRat 9 10)) = Option.some 1000000
  ∧ normalizedInt ExpiryType.SEC (PyVal.timedelta (5 * 1000000 + 900000)) = Option.some 5
  ∧ (ExpirySet.make ExpiryType.SEC (PyVal.timedelta 5000000)).map ExpirySet.get_cmd_args
      = Except.ok ["EX", "5"]
  ∧ (ExpirySet.make ExpiryType.MILLSEC (PyVal.timedelta 5000000)).map ExpirySet.get_cmd_args
      = Except.ok ["PX", "5000"]
  ∧ (ExpirySet.make ExpiryType.SEC (PyVal.timedelta 5900000)).map ExpirySet.get_cmd_args
      = Except.ok ["EX", "5"]
  ∧ (ExpirySet.make ExpiryType.UNIX_SEC (PyVal.datetime (19 / 10))).map ExpirySet.get_cmd_args
      = Except.ok ["EXAT", "1"]
  ∧ (ExpirySet.make ExpiryType.UNIX_MILLSEC (PyVal.datetime (3 / 2))).map ExpirySet.get_cmd_args
      = Except.ok ["PXAT", "1500"] :=
  expiry_c5 1000000 (mkRat 9 10) 5 900000 (by decide) (by decide) (by decide)
    (by decide) (by decide) (by decide)
